import Mathlib

/-!
Verification development for the TTB label-verification engine
(`src/lib/verification.ts`, `src/lib/constraints.ts`, `src/types/index.ts`).

Shallow embedding conventions:
* JavaScript numbers are modelled as exact rationals (`ℚ`); all constants in
  the source are decimal literals, and no claim concerns binary floating-point
  rounding.
* JavaScript strings are modelled as `String` (lists of characters).  All
  characters relevant to the engine are in the Basic Multilingual Plane, where
  JS UTF-16 code units coincide with code points.
* `x.toLowerCase()` is modelled by ASCII lowercasing (`Char.toLower`); every
  cased character the engine manipulates is ASCII.
* Fallible lookups are `Option`; JS `undefined` is `none`.
-/

namespace TTB

-- Batteries marks the `Rat` arithmetic operations irreducible; concrete
-- evaluation of the engine (`decide` on sample inputs) needs them to unfold.
attribute [local semireducible] Rat.ofScientific Rat.mul Rat.inv Rat.add Rat.sub

set_option maxRecDepth 1000000
set_option maxHeartbeats 4000000

/-- The JavaScript `\s` character class (also the set removed by
`String.prototype.trim`): space, tab, LF, VT, FF, CR, NBSP, and the
Unicode space separators, line/paragraph separators and BOM. -/
def isJsWhitespace (c : Char) : Bool :=
  c.toNat = 0x20 || c.toNat = 0x09 || c.toNat = 0x0A || c.toNat = 0x0B ||
  c.toNat = 0x0C || c.toNat = 0x0D || c.toNat = 0xA0 || c.toNat = 0x1680 ||
  (0x2000 ≤ c.toNat && c.toNat ≤ 0x200A) || c.toNat = 0x2028 ||
  c.toNat = 0x2029 || c.toNat = 0x202F || c.toNat = 0x205F ||
  c.toNat = 0x3000 || c.toNat = 0xFEFF

/-- JS `toLowerCase`, restricted to ASCII (see header note). -/
def jsLower (c : Char) : Char := c.toLower

/-- Lowercase a whole string, JS `s.toLowerCase()`. -/
def lowerStr (s : String) : String := ⟨s.data.map jsLower⟩

/-- Single-pass worker for whitespace collapsing: `inWs` records whether the
previous character was whitespace (i.e. we are inside a run that has already
emitted its single space). -/
def collapseWsAux : Bool → List Char → List Char
  | _, [] => []
  | inWs, c :: cs =>
    if isJsWhitespace c then
      if inWs then collapseWsAux true cs else ' ' :: collapseWsAux true cs
    else
      c :: collapseWsAux false cs

/-- `replace(/\s+/g, ' ')`: collapse every run of whitespace to one space. -/
def collapseWs (l : List Char) : List Char := collapseWsAux false l

/-- JS `String.prototype.trim`. -/
def trimWs (l : List Char) : List Char :=
  ((l.dropWhile isJsWhitespace).reverse.dropWhile isJsWhitespace).reverse

/-- JS `s.trim()` at the string level. -/
def jsTrim (s : String) : String := ⟨trimWs s.data⟩

/-- JS `s.includes(pat)`: `pat` occurs as a contiguous substring of `s`. -/
def hasInfix : List Char → List Char → Bool
  | t, p =>
    if p.isPrefixOf t then true
    else
      match t with
      | [] => false
      | _ :: ts => hasInfix ts p

/-- String-level `includes`. -/
def jsIncludes (s pat : String) : Bool := hasInfix s.data pat.data

/-- Case-insensitive prefix test (regex `i` flag, ASCII folding). -/
def ciIsPrefix : List Char → List Char → Bool
  | [], _ => true
  | _ :: _, [] => false
  | p :: ps, c :: cs => (jsLower p == jsLower c) && ciIsPrefix ps cs

/-- Fuel-based worker for `replaceAllCI`; each step consumes at least one
character, so fuel equal to the input length is always sufficient. -/
def replaceAllCIAux (pat rep : List Char) : Nat → List Char → List Char
  | _, [] => []
  | 0, l => l
  | fuel + 1, c :: rest =>
    if !pat.isEmpty && ciIsPrefix pat (c :: rest) then
      rep ++ replaceAllCIAux pat rep fuel ((c :: rest).drop pat.length)
    else
      c :: replaceAllCIAux pat rep fuel rest

/-- JS `text.replace(new RegExp(pat, 'gi'), rep)` for a literal pattern:
left-to-right, non-overlapping, case-insensitive global replacement.
(An empty pattern never occurs in the source tables; it is left untouched.) -/
def replaceAllCI (pat rep l : List Char) : List Char :=
  replaceAllCIAux pat rep l.length l

-- ═══════════════════════════════════════════════════════════════════════
-- verification.ts : normalizeText
-- ═══════════════════════════════════════════════════════════════════════

/-- The single-quote class `[‘’'`´]`. -/
def isSingleQuoteVariant (c : Char) : Bool :=
  c.toNat = 0x2018 || c.toNat = 0x2019 || c.toNat = 0x0027 ||
  c.toNat = 0x0060 || c.toNat = 0x00B4

/-- The double-quote class `[“”]`. -/
def isDoubleQuoteVariant (c : Char) : Bool :=
  c.toNat = 0x201C || c.toNat = 0x201D

/-- `replace(/…/g, '...')`: each U+2026 becomes three periods. -/
def expandEllipsis : List Char → List Char
  | [] => []
  | c :: cs =>
    if c.toNat = 0x2026 then '.' :: '.' :: '.' :: expandEllipsis cs
    else c :: expandEllipsis cs

/-- `normalizeText` from verification.ts: lowercase, collapse whitespace,
normalize single/double quotes, map the en dash (U+2013) to `-`, expand the
ellipsis glyph, and trim. -/
def normalizeText (s : String) : String :=
  let l0 := s.data.map jsLower
  let l1 := collapseWs l0
  let l2 := l1.map (fun c => if isSingleQuoteVariant c then '\'' else c)
  let l3 := l2.map (fun c => if isDoubleQuoteVariant c then '"' else c)
  let l4 := l3.map (fun c => if c.toNat = 0x2013 then '-' else c)
  let l5 := expandEllipsis l4
  ⟨trimWs l5⟩

-- ═══════════════════════════════════════════════════════════════════════
-- verification.ts : stringSimilarity (Levenshtein)
-- ═══════════════════════════════════════════════════════════════════════

/-- Fuel-based worker for the Levenshtein recurrence; every recursive call
shrinks the combined length by at least one, so fuel equal to the combined
length is always sufficient (the base rows never consume fuel). -/
def levAux : Nat → List Char → List Char → Nat
  | _, [], ys => ys.length
  | _, x :: xs, [] => (x :: xs).length
  | 0, _, _ => 0
  | fuel + 1, x :: xs, y :: ys =>
    min (min (levAux fuel xs (y :: ys) + 1) (levAux fuel (x :: xs) ys + 1))
      (levAux fuel xs ys + (if x = y then 0 else 1))

/-- Levenshtein edit distance; the recurrence computed by the DP matrix in
`stringSimilarity` (`matrix[i][j]` = distance of the length-`i`/`j` prefixes,
with unit-cost insertion, deletion and substitution). -/
def levenshtein (xs ys : List Char) : Nat :=
  levAux (xs.length + ys.length) xs ys

/-- `stringSimilarity` from verification.ts: normalize both inputs; equal →
1.0; either empty → 0.0; otherwise `1 - distance / maxLength`. -/
def stringSimilarity (a b : String) : ℚ :=
  let s1 := normalizeText a
  let s2 := normalizeText b
  if s1 = s2 then 1
  else if s1.length = 0 ∨ s2.length = 0 then 0
  else 1 - (levenshtein s1.data s2.data : ℚ) / ((max s1.length s2.length : ℕ) : ℚ)

-- ═══════════════════════════════════════════════════════════════════════
-- constraints.ts : thresholds and tables
-- ═══════════════════════════════════════════════════════════════════════

/-- `CONFIDENCE_THRESHOLDS.high` -/
def thresholdHigh : ℚ := 0.85
/-- `CONFIDENCE_THRESHOLDS.medium` -/
def thresholdMedium : ℚ := 0.70
/-- `CONFIDENCE_THRESHOLDS.autoApprovalMinimum` -/
def autoApprovalMinimum : ℚ := 0.85
/-- `CONFIDENCE_THRESHOLDS.humanReviewThreshold` -/
def humanReviewThreshold : ℚ := 0.75

/-- `MATCHING_THRESHOLDS.brandName.exactMatchThreshold` -/
def brandExactMatchThreshold : ℚ := 1.0
/-- `MATCHING_THRESHOLDS.brandName.highSimilarityThreshold` -/
def brandHighSimilarityThreshold : ℚ := 0.90
/-- `MATCHING_THRESHOLDS.brandName.reviewThreshold` -/
def brandReviewThreshold : ℚ := 0.70

/-- `GOVERNMENT_WARNING_RULES.minSimilarity` -/
def warningMinSimilarity : ℚ := 0.95

inductive BeverageType
  | wine
  | beer
  | distilled_spirits
deriving DecidableEq

/-- `getAlcoholTolerance` from constraints.ts, with the
`ALCOHOL_CONTENT_RULES.tolerances` table inlined (spirits: high-proof
threshold 50 ABV, tolerances 0.3/0.15; wine: threshold 14, tolerances
1.5/1.0; beer: flat 0.3). -/
def getAlcoholTolerance (bt : BeverageType) (abv : ℚ) : ℚ :=
  match bt with
  | .distilled_spirits => if abv > 50 then 0.15 else 0.3
  | .wine => if abv > 14 then 1.0 else 1.5
  | .beer => 0.3

/-- `NET_CONTENTS_RULES.standardSizes` -/
def standardSizes (bt : BeverageType) : List ℚ :=
  match bt with
  | .distilled_spirits => [50, 100, 200, 375, 750, 1000, 1750]
  | .wine => [187, 375, 500, 750, 1000, 1500, 3000]
  | .beer => [355, 473, 650, 946]

/-- `isStandardFillSize` from constraints.ts: within 5 mL of a standard size. -/
def isStandardFillSize (bt : BeverageType) (volumeMl : ℚ) : Bool :=
  (standardSizes bt).any (fun s => |s - volumeMl| < 5)

-- ═══════════════════════════════════════════════════════════════════════
-- constraints.ts : OCR normalization and semantic similarity
-- ═══════════════════════════════════════════════════════════════════════

/-- `OCR_ERROR_PATTERNS.characterSubstitutions` (from, to) pairs, in source
order. -/
def characterSubstitutions : List (String × String) :=
  [("0", "O"), ("O", "0"), ("1", "l"), ("1", "I"), ("l", "1"), ("I", "1"),
   ("5", "S"), ("S", "5"), ("8", "B"), ("B", "8"), ("rn", "m"), ("m", "rn")]

/-- JS regex `\w` class member (for the `\b` boundary in `/'s\b/g`). -/
def isWordChar (c : Char) : Bool := c.isAlpha || c.isDigit || c = '_'

/-- `replace(/'s\b/g, 's')`: drop the apostrophe of a possessive `'s` that is
followed by a word boundary; left-to-right global scan. -/
def stripPossessives : List Char → List Char
  | [] => []
  | '\'' :: 's' :: rest =>
    if (match rest with | [] => true | d :: _ => !isWordChar d) then
      's' :: stripPossessives rest
    else
      '\'' :: stripPossessives ('s' :: rest)
  | c :: cs => c :: stripPossessives cs

/-- `normalizeForOcrErrors` from constraints.ts: lowercase, collapse and trim
whitespace, normalize quotes, strip possessives. -/
def normalizeForOcrErrors (s : String) : String :=
  let l0 := s.data.map jsLower
  let l1 := trimWs (collapseWs l0)
  let l2 := l1.map (fun c => if isSingleQuoteVariant c then '\'' else c)
  let l3 := l2.map (fun c => if isDoubleQuoteVariant c then '"' else c)
  ⟨stripPossessives l3⟩

/-- The substitution loop of `areSemanticallySimilar`: `testStr` carries the
result of all substitutions applied so far (it is reassigned each iteration),
and equality with the target is re-checked after each entry. -/
def ocrSubstitutionPass : List (String × String) → List Char → List Char → Bool
  | [], _, _ => false
  | (f, t) :: rest, cur, target =>
    let cur' := replaceAllCI f.data (t.data.map jsLower) cur
    if cur' = target then true else ocrSubstitutionPass rest cur' target

/-- `areSemanticallySimilar` from constraints.ts. -/
def areSemanticallySimilar (s1 s2 : String) : Bool :=
  let n1 := normalizeForOcrErrors s1
  let n2 := normalizeForOcrErrors s2
  if n1 = n2 then true
  else ocrSubstitutionPass characterSubstitutions n1.data n2.data

-- ═══════════════════════════════════════════════════════════════════════
-- types/index.ts regex patterns, verification.ts parsers
-- ═══════════════════════════════════════════════════════════════════════

/-- Numeric value of a digit run. -/
def digitsToNat (ds : List Char) : Nat :=
  ds.foldl (fun n c => 10 * n + (c.toNat - 48)) 0

/-- `parseFloat` of the matched `\d+(?:\.\d+)?` text (exact rational). -/
def decimalToRat (intPart fracPart : List Char) : ℚ :=
  (digitsToNat intPart : ℚ) + (digitsToNat fracPart : ℚ) / ((10 : ℚ) ^ fracPart.length)

/-- Match `\d+(?:\.\d+)?` at the head of `l`; return value and the rest.
Greedy and deterministic: a shorter digit run can never satisfy what follows
(the next character would still be a digit, and no continuation of these
patterns starts with a digit). -/
def matchDecimalAt (l : List Char) : Option (ℚ × List Char) :=
  let ds := l.takeWhile Char.isDigit
  let r1 := l.dropWhile Char.isDigit
  if ds = [] then none
  else
    match r1 with
    | '.' :: t =>
      let fs := t.takeWhile Char.isDigit
      if fs = [] then some (decimalToRat ds [], r1)
      else some (decimalToRat ds fs, t.dropWhile Char.isDigit)
    | _ => some (decimalToRat ds [], r1)

/-- Strip a case-insensitive literal from the head, or fail. -/
def stripCI (pat : String) (l : List Char) : Option (List Char) :=
  if ciIsPrefix pat.data l then some (l.drop pat.data.length) else none

/-- Consume one optional literal character (regex `c?`). -/
def stripOptChar (c : Char) : List Char → List Char
  | [] => []
  | d :: t => if d = c then t else d :: t

/-- Try a match attempt at every start position, leftmost first (regex
scanning). -/
def scanFirst {α : Type} (f : List Char → Option α) : List Char → Option α
  | [] => f []
  | c :: cs =>
    match f (c :: cs) with
    | some v => some v
    | none => scanFirst f cs

/-- The qualifier alternation of `ALCOHOL_CONTENT_PATTERNS.percentage`:
`alc\.?\/vol\.?|abv|alcohol\s*by\s*volume` (the trailing optional dots do not
affect match success). -/
def alcQualifierAt (l : List Char) : Bool :=
  (match stripCI "alc" l with
   | some r1 => (stripCI "/vol" (stripOptChar '.' r1)).isSome
   | none => false) ||
  (stripCI "abv" l).isSome ||
  (match stripCI "alcohol" l with
   | some r1 =>
     match stripCI "by" (r1.dropWhile isJsWhitespace) with
     | some r2 => (stripCI "volume" (r2.dropWhile isJsWhitespace)).isSome
     | none => false
   | none => false)

/-- One attempt of `/(\d+(?:\.\d+)?)\s*%\s*(?:alc\.?\/vol\.?|abv|alcohol\s*by\s*volume)/i`. -/
def percentMatchAt (l : List Char) : Option ℚ :=
  match matchDecimalAt l with
  | none => none
  | some (v, r1) =>
    match r1.dropWhile isJsWhitespace with
    | '%' :: r2 => if alcQualifierAt (r2.dropWhile isJsWhitespace) then some v else none
    | _ => none

/-- One attempt of `/(\d+)\s*proof/i`. -/
def proofMatchAt (l : List Char) : Option Nat :=
  let ds := l.takeWhile Char.isDigit
  if ds = [] then none
  else if (stripCI "proof" ((l.dropWhile Char.isDigit).dropWhile isJsWhitespace)).isSome then
    some (digitsToNat ds)
  else none

structure AlcoholParse where
  percentage : Option ℚ
  proof : Option Nat
deriving DecidableEq

/-- `parseAlcoholContent` from verification.ts: the percentage and proof
regexes are matched independently. -/
def parseAlcoholContent (s : String) : AlcoholParse :=
  ⟨scanFirst percentMatchAt s.data, scanFirst proofMatchAt s.data⟩

/-- Greedy optional trailing `s?` after a prefix of length `n`. -/
def optS (l : List Char) (n : Nat) : Nat :=
  match l.drop n with
  | c :: _ => if jsLower c = 's' then n + 1 else n
  | [] => n

/-- The unit alternation of `NET_CONTENTS_PATTERNS.metric`
(`mL|L|ml|l|liters?|milliliters?`, case-insensitive, tried in order; the
`liters?` alternative is unreachable because `l` matches first, and is kept
for fidelity).  Returns the matched unit text. -/
def metricUnitAt (l : List Char) : Option (List Char) :=
  if ciIsPrefix "ml".data l then some (l.take 2)
  else if ciIsPrefix "l".data l then some (l.take 1)
  else if ciIsPrefix "liter".data l then some (l.take (optS l 5))
  else if ciIsPrefix "milliliter".data l then some (l.take (optS l 10))
  else none

/-- One attempt of the metric pattern; returns value and matched unit text. -/
def metricMatchAt (l : List Char) : Option (ℚ × List Char) :=
  match matchDecimalAt l with
  | none => none
  | some (v, r1) =>
    match metricUnitAt (r1.dropWhile isJsWhitespace) with
    | some u => some (v, u)
    | none => none

/-- The unit alternation of `NET_CONTENTS_PATTERNS.imperial`
(`fl\.?\s*oz\.?|oz\.?|ounces?`); only success matters downstream. -/
def imperialUnitAt (l : List Char) : Bool :=
  (match stripCI "fl" l with
   | some r1 => (stripCI "oz" ((stripOptChar '.' r1).dropWhile isJsWhitespace)).isSome
   | none => false) ||
  (stripCI "oz" l).isSome ||
  (stripCI "ounce" l).isSome

/-- One attempt of the imperial pattern. -/
def imperialMatchAt (l : List Char) : Option ℚ :=
  match matchDecimalAt l with
  | none => none
  | some (v, r1) => if imperialUnitAt (r1.dropWhile isJsWhitespace) then some v else none

inductive NCUnit
  | ml
  | floz
deriving DecidableEq

structure NetParse where
  value : ℚ
  unit : NCUnit
deriving DecidableEq

/-- `parseNetContents` from verification.ts: metric first, then imperial;
liter-family units (matched unit text lowercased equal to `l`, `liter` or
`liters`, not containing `milli`) are scaled ×1000 to milliliters. -/
def parseNetContents (s : String) : Option NetParse :=
  match scanFirst metricMatchAt s.data with
  | some (v, u) =>
    let ul : String := lowerStr ⟨u⟩
    let v' :=
      if (ul = "l" ∨ ul = "liter" ∨ ul = "liters") ∧ jsIncludes ul "milli" = false then
        v * 1000
      else v
    some ⟨v', .ml⟩
  | none =>
    match scanFirst imperialMatchAt s.data with
    | some v => some ⟨v, .floz⟩
    | none => none

-- ═══════════════════════════════════════════════════════════════════════
-- Number formatting used inside human-readable messages
-- ═══════════════════════════════════════════════════════════════════════

/-- JS `x.toFixed(0)` for the nonnegative values that occur in messages:
round half up to an integer. -/
def jsToFixed0 (q : ℚ) : String := toString ⌊q + 1 / 2⌋

/-- JS `x.toFixed(1)` for the nonnegative values that occur in messages. -/
def jsToFixed1 (q : ℚ) : String :=
  let n : ℤ := ⌊q * 10 + 1 / 2⌋
  toString (n / 10) ++ "." ++ toString (n % 10)

/-- Abstraction of JS default number→string conversion inside template
strings.  The produced text is carried verbatim in `notes`/issue strings and
is never branched on by the engine, so its exact shape is not load-bearing. -/
def jsNumberRepr (q : ℚ) : String := toString q

-- ═══════════════════════════════════════════════════════════════════════
-- verification.ts : field comparators
-- ═══════════════════════════════════════════════════════════════════════

structure CompareResult where
  /-- source field `matches` (renamed: `matches` is a reserved token in Lean) -/
  isMatch : Bool
  confidence : ℚ
  notes : Option String
deriving DecidableEq

/-- `compareBrandNames` from verification.ts. -/
def compareBrandNames (applicationName labelName : String) : CompareResult :=
  if areSemanticallySimilar applicationName labelName then ⟨true, 1.0, none⟩
  else
    let similarity := stringSimilarity applicationName labelName
    if similarity ≥ brandExactMatchThreshold then ⟨true, 1.0, none⟩
    else if similarity ≥ brandHighSimilarityThreshold then
      ⟨true, similarity,
        some ("Minor difference detected: \"" ++ applicationName ++ "\" vs \"" ++ labelName ++ "\"")⟩
    else if similarity ≥ brandReviewThreshold then
      ⟨false, similarity,
        some ("Possible match requiring review: \"" ++ applicationName ++ "\" vs \"" ++ labelName ++ "\"")⟩
    else
      ⟨false, similarity,
        some ("Mismatch: \"" ++ applicationName ++ "\" vs \"" ++ labelName ++ "\"")⟩

/-- `compareAlcoholContent` from verification.ts. -/
def compareAlcoholContent (applicationContent labelContent : String)
    (beverageType : BeverageType) : CompareResult :=
  let appParsed := parseAlcoholContent applicationContent
  let labelParsed := parseAlcoholContent labelContent
  match appParsed.percentage, labelParsed.percentage with
  | some ap, some lp =>
    let diff := |ap - lp|
    if diff = 0 then ⟨true, 1.0, none⟩
    else
      let tolerance := getAlcoholTolerance beverageType ap
      if diff ≤ tolerance then
        ⟨true, 1 - diff / tolerance * 0.1,
          if diff > 0.05 then
            some ("Within TTB tolerance (±" ++ jsNumberRepr tolerance ++ "%): " ++
              jsNumberRepr ap ++ "% vs " ++ jsNumberRepr lp ++ "%")
          else none⟩
      else
        ⟨false, 0.0,
          some ("Alcohol content mismatch: " ++ jsNumberRepr ap ++ "% vs " ++
            jsNumberRepr lp ++ "% (exceeds ±" ++ jsNumberRepr tolerance ++ "% tolerance)")⟩
  | _, _ =>
    match appParsed.proof, labelParsed.proof with
    | some apf, some lpf =>
      let proofDiff := ((apf : ℤ) - (lpf : ℤ)).natAbs
      if proofDiff = 0 then ⟨true, 1.0, none⟩
      else if proofDiff ≤ 1 then
        ⟨true, 0.95,
          some ("Minor proof difference: " ++ toString apf ++ " vs " ++ toString lpf)⟩
      else
        ⟨false, 0.0, some ("Proof mismatch: " ++ toString apf ++ " vs " ++ toString lpf)⟩
    | _, _ =>
      let similarity := stringSimilarity applicationContent labelContent
      ⟨decide (similarity ≥ 0.9), similarity,
        if similarity < 0.9 then some "Could not parse alcohol content for comparison" else none⟩

/-- `fl oz → mL` conversion factor used by `compareNetContents`. -/
def flOzToMl : ℚ := 29.5735

/-- `compareNetContents` from verification.ts.  Note the control flow: a
same-unit pair that is neither equal nor within the 1% tolerance falls
through to the milliliter-conversion 5 mL check. -/
def compareNetContents (applicationContents labelContents : String)
    (beverageType : BeverageType) : CompareResult :=
  match parseNetContents applicationContents, parseNetContents labelContents with
  | some appParsed, some labelParsed =>
    if appParsed.unit = labelParsed.unit ∧ appParsed.value = labelParsed.value then
      let valueMl := if appParsed.unit = NCUnit.ml then appParsed.value else appParsed.value * flOzToMl
      ⟨true, 1.0,
        if isStandardFillSize beverageType valueMl = false then
          some ("Non-standard container size: " ++ applicationContents)
        else none⟩
    else if appParsed.unit = labelParsed.unit ∧
        |appParsed.value - labelParsed.value| ≤ appParsed.value * 0.01 then
      ⟨true, 0.95,
        some ("Minor net contents difference: " ++ jsNumberRepr appParsed.value ++ " vs " ++
          jsNumberRepr labelParsed.value)⟩
    else
      let appMl := if appParsed.unit = NCUnit.floz then appParsed.value * flOzToMl else appParsed.value
      let labelMl := if labelParsed.unit = NCUnit.floz then labelParsed.value * flOzToMl else labelParsed.value
      if |appMl - labelMl| < 5 then
        ⟨true, 0.90,
          some ("Matched after unit conversion: " ++ applicationContents ++ " ≈ " ++ labelContents)⟩
      else
        ⟨false, 0.0,
          some ("Net contents mismatch: " ++ applicationContents ++ " vs " ++ labelContents)⟩
  | _, _ =>
    let similarity := stringSimilarity applicationContents labelContents
    ⟨decide (similarity ≥ 0.9), similarity, none⟩

/-- `compareStrings` from verification.ts. -/
def compareStrings (app label : String) (threshold : ℚ) : CompareResult :=
  let similarity := stringSimilarity app label
  ⟨decide (similarity ≥ threshold), similarity,
    if similarity < threshold then
      some ("Values differ: \"" ++ app ++ "\" vs \"" ++ label ++ "\"")
    else none⟩

-- ═══════════════════════════════════════════════════════════════════════
-- types/index.ts : warning text; verification.ts : warning validators
-- ═══════════════════════════════════════════════════════════════════════

/-- `GOVERNMENT_WARNING_TEXT` from types/index.ts. -/
def GOVERNMENT_WARNING_TEXT : String :=
  "GOVERNMENT WARNING: (1) According to the Surgeon General, women should not drink alcoholic beverages during pregnancy because of the risk of birth defects. (2) Consumption of alcoholic beverages impairs your ability to drive a car or operate machinery, and may cause health problems."

/-- `GOVERNMENT_WARNING_REQUIRED_PHRASES` from types/index.ts. -/
def GOVERNMENT_WARNING_REQUIRED_PHRASES : List String :=
  ["government warning", "surgeon general", "women should not drink", "pregnancy",
   "birth defects", "impairs your ability", "drive a car", "operate machinery",
   "health problems"]

/-- The issue string for a nonempty missing-phrase list. -/
def missingPhrasesMsg (missing : List String) : String :=
  "Missing required phrases: " ++ String.intercalate ", " (missing.take 3) ++
    (if missing.length > 3 then "..." else "")

structure WarningBasicResult where
  present : Bool
  correct : Bool
  notes : Option String
  issues : Option (List String)
deriving DecidableEq

/-- `validateGovernmentWarning` from verification.ts. -/
def validateGovernmentWarning (warningText : Option String) : WarningBasicResult :=
  match warningText with
  | none =>
    ⟨false, false, some "Government warning not found on label",
      some ["Government warning text not found"]⟩
  | some t =>
    if (jsTrim t).length = 0 then
      ⟨false, false, some "Government warning not found on label",
        some ["Government warning text not found"]⟩
    else if jsIncludes t "GOVERNMENT WARNING:" = false then
      if jsIncludes (lowerStr t) "government warning" then
        let issue :=
          if jsIncludes t "Government Warning:" then
            "\"GOVERNMENT WARNING:\" must be in ALL CAPS (found \"Government Warning:\" in title case)"
          else if jsIncludes t "government warning:" then
            "\"GOVERNMENT WARNING:\" must be in ALL CAPS (found lowercase)"
          else if jsIncludes t "GOVERNMENT WARNING" = true ∧ jsIncludes t "GOVERNMENT WARNING:" = false then
            "Missing colon after \"GOVERNMENT WARNING\""
          else
            "\"GOVERNMENT WARNING:\" must be in ALL CAPS"
        ⟨true, false, some issue, some [issue]⟩
      else
        ⟨false, false, some "Government warning prefix not found",
          some ["Government warning prefix \"GOVERNMENT WARNING:\" not found"]⟩
    else
      let normalizedWarning := normalizeText t
      let normalizedRequired := normalizeText GOVERNMENT_WARNING_TEXT
      let missingPhrases :=
        GOVERNMENT_WARNING_REQUIRED_PHRASES.filter
          (fun p => jsIncludes normalizedWarning (lowerStr p) = false)
      let issues0 : List String :=
        if missingPhrases.isEmpty then [] else [missingPhrasesMsg missingPhrases]
      let similarity := stringSimilarity normalizedWarning normalizedRequired
      if similarity ≥ warningMinSimilarity then
        ⟨true, true, none, if issues0.isEmpty then none else some issues0⟩
      else if similarity ≥ 0.85 then
        ⟨true, false, some "Government warning text differs slightly from required text",
          some (issues0 ++ ["Warning text " ++ jsToFixed0 (similarity * 100) ++ "% similar to required text"])⟩
      else if similarity ≥ 0.70 then
        ⟨true, false, some "Government warning text differs from required text",
          some (issues0 ++ ["Warning text only " ++ jsToFixed0 (similarity * 100) ++ "% similar to required text"])⟩
      else
        ⟨true, false, some "Government warning text significantly differs from required text",
          some (issues0 ++ ["Warning text significantly different (" ++ jsToFixed0 (similarity * 100) ++ "% match)"])⟩

structure GovernmentWarningDetails where
  prefixInAllCaps : Bool
  appearsBold : Option Bool
  onContrastingBackground : Option Bool
  textComplete : Bool
  issues : List String
deriving DecidableEq

structure ImageQualityAssessment where
  overallScore : ℚ
  issues : List String
  recommendResubmit : Bool
deriving DecidableEq

/-- `ExtractedLabelData` from types/index.ts, restricted to the fields the
verification engine consumes (`fancifulName`, `proof`, `producerAddress`,
`producerRole`, `containsSulfites`, `ageStatement`, `rawText`,
`fieldConfidences`, `extractionNotes` and `governmentWarningFormatCorrect`
are never read by `verifyLabel` or its helpers and are omitted). -/
structure ExtractedLabelData where
  brandName : Option String
  classType : Option String
  alcoholContent : Option String
  netContents : Option String
  producerName : Option String
  countryOfOrigin : Option String
  vintageYear : Option String
  appellation : Option String
  governmentWarning : Option String
  governmentWarningDetails : Option GovernmentWarningDetails
  confidence : ℚ
  imageQuality : Option ImageQualityAssessment
deriving DecidableEq

structure WarningEnhancedResult where
  present : Bool
  correct : Bool
  issues : List String
  confidence : ℚ
deriving DecidableEq

/-- `validateGovernmentWarningEnhanced` from verification.ts. -/
def validateGovernmentWarningEnhanced (extractedData : ExtractedLabelData) : WarningEnhancedResult :=
  let warningText := extractedData.governmentWarning
  let basicResult := validateGovernmentWarning warningText
  let issues1 := basicResult.issues.getD []
  if basicResult.present = false then
    ⟨false, false, if issues1.isEmpty then ["Government warning not found"] else issues1, 0⟩
  else
    let issuesD :=
      match extractedData.governmentWarningDetails with
      | none => issues1
      | some d =>
        let a :=
          if d.prefixInAllCaps = false ∧ issues1.any (fun i => jsIncludes i "ALL CAPS") = false then
            ["\"GOVERNMENT WARNING:\" prefix not in ALL CAPS"]
          else []
        let b :=
          if d.appearsBold = some false then
            ["\"GOVERNMENT WARNING:\" should be in bold type (flagged for review)"]
          else []
        let c :=
          if d.textComplete = false then ["Government warning text appears incomplete"] else []
        let base := issues1 ++ a ++ b ++ c
        base ++ d.issues.filter (fun i => base.contains i = false)
    let similarity :=
      stringSimilarity (normalizeText (warningText.getD "")) (normalizeText GOVERNMENT_WARNING_TEXT)
    ⟨basicResult.present, basicResult.correct && issuesD.isEmpty, issuesD, similarity⟩

-- ═══════════════════════════════════════════════════════════════════════
-- types/index.ts : data model; verification.ts : verifyField
-- ═══════════════════════════════════════════════════════════════════════

/-- `ApplicationData` from types/index.ts, restricted to the fields the
engine consumes (`fancifulName`, `proof`, `producerAddress`,
`containsSulfites`, `ageStatement` are never read by `verifyLabel`). -/
structure ApplicationData where
  brandName : String
  classType : String
  beverageType : BeverageType
  alcoholContent : String
  netContents : String
  producerName : String
  countryOfOrigin : Option String
  vintageYear : Option String
  appellation : Option String
deriving DecidableEq

structure FieldVerification where
  field : String
  applicationValue : String
  labelValue : Option String
  /-- source field `matches` (renamed: `matches` is a reserved token in Lean) -/
  isMatch : Bool
  confidence : ℚ
  notes : Option String
deriving DecidableEq

inductive VerificationStatus
  | approved
  | rejected
  | needs_review
deriving DecidableEq

/-- JS string falsiness: `undefined`/`null` or the empty string. -/
def jsFalsyStr : Option String → Bool
  | none => true
  | some s => s == ""

/-- `verifyField` from verification.ts. -/
def verifyField (fieldName : String) (applicationValue labelValue : Option String)
    (compareFn : String → String → CompareResult) : FieldVerification :=
  if jsFalsyStr applicationValue then
    ⟨fieldName, "", labelValue, true, 1.0, some "Field not specified in application"⟩
  else
    let appV := applicationValue.getD ""
    if jsFalsyStr labelValue then
      ⟨fieldName, appV, none, false, 0.0, some "Field not found on label"⟩
    else
      let r := compareFn appV (labelValue.getD "")
      ⟨fieldName, appV, labelValue, r.isMatch, r.confidence, r.notes⟩

-- ═══════════════════════════════════════════════════════════════════════
-- verification.ts : verifyLabel
-- ═══════════════════════════════════════════════════════════════════════

/-- The `Brand Name` FieldVerification built by `verifyLabel`. -/
def brandNameVerification (app : ApplicationData) (ed : ExtractedLabelData) : FieldVerification :=
  verifyField "Brand Name" (some app.brandName) ed.brandName compareBrandNames

/-- The `Class/Type` FieldVerification built by `verifyLabel`. -/
def classTypeVerification (app : ApplicationData) (ed : ExtractedLabelData) : FieldVerification :=
  verifyField "Class/Type" (some app.classType) ed.classType
    (fun a l => compareStrings a l 0.85)

/-- The `Alcohol Content` FieldVerification built by `verifyLabel`. -/
def alcoholVerification (app : ApplicationData) (ed : ExtractedLabelData) : FieldVerification :=
  verifyField "Alcohol Content" (some app.alcoholContent) ed.alcoholContent
    (fun a l => compareAlcoholContent a l app.beverageType)

/-- The `Net Contents` FieldVerification built by `verifyLabel`. -/
def netContentsVerification (app : ApplicationData) (ed : ExtractedLabelData) : FieldVerification :=
  verifyField "Net Contents" (some app.netContents) ed.netContents
    (fun a l => compareNetContents a l app.beverageType)

/-- The `Producer Name` FieldVerification built by `verifyLabel`. -/
def producerVerification (app : ApplicationData) (ed : ExtractedLabelData) : FieldVerification :=
  verifyField "Producer Name" (some app.producerName) ed.producerName
    (fun a l => compareStrings a l 0.80)

/-- The `Country of Origin` FieldVerification (built only when the
application declares a country). -/
def countryVerification (app : ApplicationData) (ed : ExtractedLabelData) : FieldVerification :=
  verifyField "Country of Origin" app.countryOfOrigin ed.countryOfOrigin
    (fun a l => compareStrings a l 0.90)

/-- The `Vintage Year` FieldVerification (wine only): exact equality. -/
def vintageVerification (app : ApplicationData) (ed : ExtractedLabelData) : FieldVerification :=
  verifyField "Vintage Year" app.vintageYear ed.vintageYear
    (fun a l =>
      ⟨a == l, if a == l then 1.0 else 0.0,
        if a ≠ l then some ("Vintage year mismatch: " ++ a ++ " vs " ++ l) else none⟩)

/-- The `Appellation` FieldVerification (wine only). -/
def appellationVerification (app : ApplicationData) (ed : ExtractedLabelData) : FieldVerification :=
  verifyField "Appellation" app.appellation ed.appellation
    (fun a l => compareStrings a l 0.85)

/-- Guard for the country-of-origin comparison: `if (applicationData.countryOfOrigin)`. -/
def hasCountry (app : ApplicationData) : Bool := !jsFalsyStr app.countryOfOrigin

/-- Guard for the vintage comparison: `beverageType === 'wine' && applicationData.vintageYear`. -/
def hasVintage (app : ApplicationData) : Bool :=
  app.beverageType = BeverageType.wine && !jsFalsyStr app.vintageYear

/-- Guard for the appellation comparison. -/
def hasAppellation (app : ApplicationData) : Bool :=
  app.beverageType = BeverageType.wine && !jsFalsyStr app.appellation

/-- The `fieldVerifications` list of `verifyLabel`, in push order. -/
def fieldVerificationsOf (app : ApplicationData) (ed : ExtractedLabelData) : List FieldVerification :=
  [brandNameVerification app ed, classTypeVerification app ed, alcoholVerification app ed,
   netContentsVerification app ed, producerVerification app ed] ++
  (if hasCountry app then [countryVerification app ed] else []) ++
  (if hasVintage app then [vintageVerification app ed] else []) ++
  (if hasAppellation app then [appellationVerification app ed] else [])

/-- `validateGovernmentWarningEnhanced` as invoked by `verifyLabel`. -/
def warningValidationOf (ed : ExtractedLabelData) : WarningEnhancedResult :=
  validateGovernmentWarningEnhanced ed

/-- The non-standard-fill-size review trigger of `verifyLabel`: the
application's net contents parse to a truthy (nonzero) value that is not a
standard size. -/
def nonStandardSizeTrigger (app : ApplicationData) : Bool :=
  !jsFalsyStr (some app.netContents) &&
  (match parseNetContents app.netContents with
   | some p =>
     p.value ≠ 0 &&
     !isStandardFillSize app.beverageType
       (if p.unit = NCUnit.floz then p.value * flOzToMl else p.value)
   | none => false)

/-- `humanReviewReasons` as collected by `verifyLabel` before the status
decision, in push order. -/
def preReviewReasons (app : ApplicationData) (ed : ExtractedLabelData) : List String :=
  let bv := brandNameVerification app ed
  let cv := classTypeVerification app ed
  let pv := producerVerification app ed
  let av := appellationVerification app ed
  let wv := warningValidationOf ed
  (if bv.isMatch = false ∧ bv.confidence ≥ brandReviewThreshold then
    ["Brand name requires review: similar but not exact match (" ++
      jsToFixed0 (bv.confidence * 100) ++ "% similar)"]
   else []) ++
  (if cv.isMatch = false ∧ cv.confidence ≥ 0.70 then ["Class/type requires review"] else []) ++
  (if nonStandardSizeTrigger app then
    ["Non-standard container size: " ++ app.netContents]
   else []) ++
  (if pv.isMatch = false ∧ pv.confidence ≥ 0.60 then ["Producer name requires review"] else []) ++
  (if hasAppellation app ∧ av.isMatch = false then ["Appellation requires review"] else []) ++
  (if wv.present = true ∧ wv.correct = false ∧ wv.confidence ≥ 0.85 then
    ["Government warning requires review: minor formatting issues"]
   else []) ++
  (match ed.imageQuality with
   | some iq =>
     if iq.recommendResubmit then
       ["Image quality issues: " ++ String.intercalate ", " iq.issues]
     else if iq.issues.length > 0 ∧ iq.overallScore < 0.70 then
       ["Low image quality may affect accuracy (" ++ jsToFixed0 (iq.overallScore * 100) ++ "%)"]
     else []
   | none => [])

/-- `flaggedIssues` as collected by `verifyLabel`, in push order. -/
def flaggedIssuesOf (app : ApplicationData) (ed : ExtractedLabelData) : List String :=
  let bv := brandNameVerification app ed
  let cv := classTypeVerification app ed
  let av := alcoholVerification app ed
  let nv := netContentsVerification app ed
  let pv := producerVerification app ed
  let cov := countryVerification app ed
  let vv := vintageVerification app ed
  let wv := warningValidationOf ed
  (if bv.isMatch = false ∧ bv.confidence < brandReviewThreshold then ["Brand name mismatch"] else []) ++
  (if cv.isMatch = false ∧ cv.confidence < 0.70 then ["Class/type mismatch"] else []) ++
  (if av.isMatch = false then ["Alcohol content mismatch"] else []) ++
  (if nv.isMatch = false then ["Net contents mismatch"] else []) ++
  (if pv.isMatch = false ∧ pv.confidence < 0.60 then ["Producer name mismatch"] else []) ++
  (if hasCountry app ∧ cov.isMatch = false then ["Country of origin mismatch"] else []) ++
  (if hasVintage app ∧ vv.isMatch = false then ["Vintage year mismatch"] else []) ++
  (if wv.present = false then ["Government warning not present"]
   else if wv.correct = false then
     if wv.confidence ≥ 0.85 then ["Government warning format/text issue"]
     else ["Government warning format/text incorrect"]
   else [])

/-- `matchedFields` of `verifyLabel`. -/
def matchedFieldsOf (app : ApplicationData) (ed : ExtractedLabelData) : Nat :=
  ((fieldVerificationsOf app ed).filter (fun f => f.isMatch)).length

/-- `totalFields` of `verifyLabel`. -/
def totalFieldsOf (app : ApplicationData) (ed : ExtractedLabelData) : Nat :=
  (fieldVerificationsOf app ed).length

/-- `avgFieldConfidence` of `verifyLabel`. -/
def avgFieldConfidenceOf (app : ApplicationData) (ed : ExtractedLabelData) : ℚ :=
  ((fieldVerificationsOf app ed).foldl (fun s f => s + f.confidence) 0) /
    (totalFieldsOf app ed : ℚ)

/-- `overallConfidence = min(avgFieldConfidence, extractedData.confidence)`. -/
def overallConfidenceOf (app : ApplicationData) (ed : ExtractedLabelData) : ℚ :=
  min (avgFieldConfidenceOf app ed) ed.confidence

/-- Critical failure 1: warning absent. -/
def criticalWarningAbsent (ed : ExtractedLabelData) : Bool :=
  !(warningValidationOf ed).present

/-- Critical failure 2: warning incorrect with warning confidence < 0.85. -/
def criticalWarningIncorrect (ed : ExtractedLabelData) : Bool :=
  !(warningValidationOf ed).correct && decide ((warningValidationOf ed).confidence < 0.85)

/-- Critical failure 3: brand mismatch with brand confidence below the brand
review threshold (looked up by field name in the verification list, exactly
as the source does). -/
def criticalBrandMismatch (app : ApplicationData) (ed : ExtractedLabelData) : Bool :=
  (match (fieldVerificationsOf app ed).find? (fun f => f.field == "Brand Name") with
   | some f => !f.isMatch
   | none => true) &&
  decide ((match (fieldVerificationsOf app ed).find? (fun f => f.field == "Brand Name") with
   | some f => f.confidence
   | none => 0) < brandReviewThreshold)

/-- Critical failure 4: alcohol-content mismatch. -/
def criticalAlcoholMismatch (app : ApplicationData) (ed : ExtractedLabelData) : Bool :=
  match (fieldVerificationsOf app ed).find? (fun f => f.field == "Alcohol Content") with
  | some f => !f.isMatch
  | none => true

/-- `criticalFailures.some(f => f)` of `verifyLabel`. -/
def hasCriticalFailure (app : ApplicationData) (ed : ExtractedLabelData) : Bool :=
  criticalWarningAbsent ed || criticalWarningIncorrect ed ||
  criticalBrandMismatch app ed || criticalAlcoholMismatch app ed

/-- The status-decision block of `verifyLabel`: returns the final status, the
final `humanReviewReasons` (the decision appends to it), and the final
`requiresHumanReview` flag. -/
def statusDecision (hasCrit : Bool) (matched total : Nat) (warnCorrect : Bool)
    (overall : ℚ) (reasons : List String) : VerificationStatus × List String × Bool :=
  if hasCrit then
    if overall ≥ thresholdMedium ∧ reasons.length > 0 then
      (VerificationStatus.needs_review,
       (if reasons.any (fun r => jsIncludes r "Critical") then reasons
        else reasons ++ ["Critical fields may have issues but confidence is moderate"]),
       true)
    else
      (VerificationStatus.rejected, reasons, reasons.length > 0)
  else if matched = total ∧ warnCorrect = true ∧ overall ≥ autoApprovalMinimum ∧
      reasons.length = 0 then
    (VerificationStatus.approved, reasons, reasons.length > 0)
  else if overall < humanReviewThreshold ∨ reasons.length > 0 then
    (VerificationStatus.needs_review,
     (if overall < humanReviewThreshold then
        (if reasons.any (fun r => jsIncludes r "confidence") then reasons
         else reasons ++ ["Low confidence score: " ++ jsToFixed1 (overall * 100) ++ "%"])
      else reasons),
     true)
  else if (matched : ℚ) ≥ (total : ℚ) * 0.8 ∧ warnCorrect = true then
    (VerificationStatus.needs_review, reasons ++ ["Some fields require human verification"], true)
  else
    (VerificationStatus.rejected, reasons, reasons.length > 0)

/-- `VerificationResult` from types/index.ts.  The generated `id` and
`timestamp` are caller-visible nondeterminism (uuid / clock) outside the
pure engine and are omitted. -/
structure VerificationResult where
  status : VerificationStatus
  overallConfidence : ℚ
  processingTimeMs : ℚ
  fieldVerifications : List FieldVerification
  governmentWarningPresent : Bool
  governmentWarningCorrect : Bool
  governmentWarningNotes : Option String
  governmentWarningIssues : List String
  extractedData : ExtractedLabelData
  matchedFields : Nat
  totalFields : Nat
  flaggedIssues : List String
  requiresHumanReview : Bool
  humanReviewReasons : List String
  imageQualityScore : Option ℚ
  imageQualityIssues : Option (List String)
  meetsTargetTime : Bool
deriving DecidableEq

/-- `PROCESSING_CONSTRAINTS.targetTimeMs` -/
def targetTimeMs : ℚ := 5000

/-- `verifyLabel` from verification.ts. -/
def verifyLabel (app : ApplicationData) (ed : ExtractedLabelData)
    (processingTimeMs : ℚ) : VerificationResult :=
  let wv := warningValidationOf ed
  let d := statusDecision (hasCriticalFailure app ed) (matchedFieldsOf app ed)
    (totalFieldsOf app ed) wv.correct (overallConfidenceOf app ed) (preReviewReasons app ed)
  { status := d.1
    overallConfidence := overallConfidenceOf app ed
    processingTimeMs := processingTimeMs
    fieldVerifications := fieldVerificationsOf app ed
    governmentWarningPresent := wv.present
    governmentWarningCorrect := wv.correct
    governmentWarningNotes := wv.issues.head?
    governmentWarningIssues := wv.issues
    extractedData := ed
    matchedFields := matchedFieldsOf app ed
    totalFields := totalFieldsOf app ed
    flaggedIssues := flaggedIssuesOf app ed
    requiresHumanReview := d.2.2
    humanReviewReasons := d.2.1
    imageQualityScore := ed.imageQuality.map (fun iq => iq.overallScore)
    imageQualityIssues := ed.imageQuality.map (fun iq => iq.issues)
    meetsTargetTime := decide (processingTimeMs ≤ targetTimeMs) }

-- ═══════════════════════════════════════════════════════════════════════
-- Auxiliary definitions used by the theorems
-- ═══════════════════════════════════════════════════════════════════════

/-- The *independent* (non-accumulating) reading of the OCR-substitution
check, written from the spec's words for comparison with the source function
`areSemanticallySimilar`: each table entry is applied to the normalized first
string on its own, and equality with the second string is checked after that
single substitution. -/
def independentSubstitutionCheck (s1 s2 : String) : Bool :=
  let n1 := normalizeForOcrErrors s1
  let n2 := normalizeForOcrErrors s2
  n1 == n2 ||
    characterSubstitutions.any
      (fun sub => replaceAllCI sub.1.data (sub.2.data.map jsLower) n1.data == n2.data)

/-- The accumulated application of a prefix of the substitution table (the
value `testStr` holds after the listed entries have run). -/
def applySubstitutionsPrefix (subs : List (String × String)) (l : List Char) : List Char :=
  subs.foldl (fun cur sub => replaceAllCI sub.1.data (sub.2.data.map jsLower) cur) l

/-- A sample application used by witnesses. -/
def sampleApplication : ApplicationData :=
  ⟨"OLD TOM", "Bourbon", BeverageType.distilled_spirits, "45% abv", "750 ml", "Acme",
   none, none, none⟩

/-- Extraction data that reproduces `sampleApplication` exactly, with the
canonical warning text and confidence 0.95. -/
def sampleExtractedExact : ExtractedLabelData :=
  ⟨some "OLD TOM", some "Bourbon", some "45% abv", some "750 ml", some "Acme",
   none, none, none, some GOVERNMENT_WARNING_TEXT, none, 0.95, none⟩

/-- Extraction data with every field missing (warning absent). -/
def sampleExtractedEmpty : ExtractedLabelData :=
  ⟨none, none, none, none, none, none, none, none, none, none, 0.9, none⟩

/-- The milliliter conversion `compareNetContents` applies before its 5 mL
check. -/
def netToMl (p : NetParse) : ℚ :=
  if p.unit = NCUnit.floz then p.value * flOzToMl else p.value

-- ═══════════════════════════════════════════════════════════════════════
-- Theorems
-- ═══════════════════════════════════════════════════════════════════════

/-- C6: `getAlcoholTolerance` is an exact step function: 0.3 for spirits at
ABV ≤ 50 and 0.15 above 50; 1.5 for wine at ABV ≤ 14 and 1.0 above 14; 0.3
for beer at every ABV. -/
theorem alcoholTolerance_step_function (abv : ℚ) :
    (abv ≤ 50 → getAlcoholTolerance BeverageType.distilled_spirits abv = 0.3) ∧
    (50 < abv → getAlcoholTolerance BeverageType.distilled_spirits abv = 0.15) ∧
    (abv ≤ 14 → getAlcoholTolerance BeverageType.wine abv = 1.5) ∧
    (14 < abv → getAlcoholTolerance BeverageType.wine abv = 1.0) ∧
    getAlcoholTolerance BeverageType.beer abv = 0.3 := by
  refine ⟨fun h => ?_, fun h => ?_, fun h => ?_, fun h => ?_, rfl⟩
  · exact if_neg (not_lt.mpr h)
  · exact if_pos h
  · exact if_neg (not_lt.mpr h)
  · exact if_pos h

/-- Witness for C6 at the spec's sample points. -/
theorem alcoholTolerance_step_function_witness :
    getAlcoholTolerance BeverageType.distilled_spirits 40 = 0.3 ∧
    getAlcoholTolerance BeverageType.distilled_spirits 55 = 0.15 ∧
    getAlcoholTolerance BeverageType.wine 12 = 1.5 ∧
    getAlcoholTolerance BeverageType.wine 18 = 1.0 ∧
    getAlcoholTolerance BeverageType.beer 5 = 0.3 :=
  ⟨(alcoholTolerance_step_function 40).1 (by norm_num),
   (alcoholTolerance_step_function 55).2.1 (by norm_num),
   (alcoholTolerance_step_function 12).2.2.1 (by norm_num),
   (alcoholTolerance_step_function 18).2.2.2.1 (by norm_num),
   (alcoholTolerance_step_function 5).2.2.2.2⟩

/-- C7: `verifyField` short-circuits — an empty/unset application value gives
`matches = true`, confidence 1.0 and the not-specified note for every
comparison function; a populated application value with an absent extracted
value gives `matches = false`, confidence 0.0 and the not-found note for
every comparison function. -/
theorem verifyField_short_circuits :
    (∀ (n : String) (lv : Option String) (f : String → String → CompareResult),
      verifyField n none lv f =
        ⟨n, "", lv, true, 1.0, some "Field not specified in application"⟩) ∧
    (∀ (n : String) (lv : Option String) (f : String → String → CompareResult),
      verifyField n (some "") lv f =
        ⟨n, "", lv, true, 1.0, some "Field not specified in application"⟩) ∧
    (∀ (n s : String) (f : String → String → CompareResult), s ≠ "" →
      verifyField n (some s) none f =
        ⟨n, s, none, false, 0.0, some "Field not found on label"⟩) := by
  refine ⟨fun n lv f => rfl, fun n lv f => rfl, fun n s f hs => ?_⟩
  simp [verifyField, jsFalsyStr, hs]

/-- Witness for C7 at concrete field data and a concrete comparator. -/
theorem verifyField_short_circuits_witness :
    verifyField "Brand Name" none (some "X") (fun _ _ => ⟨false, 0, none⟩) =
      ⟨"Brand Name", "", some "X", true, 1.0, some "Field not specified in application"⟩ ∧
    verifyField "Brand Name" (some "") (some "X") (fun _ _ => ⟨false, 0, none⟩) =
      ⟨"Brand Name", "", some "X", true, 1.0, some "Field not specified in application"⟩ ∧
    verifyField "Brand Name" (some "x") none (fun _ _ => ⟨false, 0, none⟩) =
      ⟨"Brand Name", "x", none, false, 0.0, some "Field not found on label"⟩ :=
  ⟨verifyField_short_circuits.1 "Brand Name" (some "X") (fun _ _ => ⟨false, 0, none⟩),
   verifyField_short_circuits.2.1 "Brand Name" (some "X") (fun _ _ => ⟨false, 0, none⟩),
   verifyField_short_circuits.2.2 "Brand Name" "x" (fun _ _ => ⟨false, 0, none⟩) (by decide)⟩

/-- C9 counterexample: the em dash (U+2014) is not normalized to the ASCII
hyphen — `normalizeText` only rewrites the en dash (U+2013). -/
theorem normalizeText_emDash_counterexample :
    normalizeText "—" ≠ "-" ∧ normalizeText "—" = "—" := by decide

/-- C9 (amended): `normalizeText` lower-cases, collapses whitespace runs and
trims, maps each curly/smart single-quote variant (including acute and grave
accents) to the ASCII apostrophe, maps curly double quotes to the ASCII
double quote, maps the en dash to the ASCII hyphen (the em dash is left
unchanged), and expands the ellipsis glyph to three periods. -/
theorem normalizeText_canonicalizations :
    normalizeText "  HELLO   World  " = "hello world" ∧
    normalizeText "‘" = "'" ∧ normalizeText "’" = "'" ∧
    normalizeText "'" = "'" ∧ normalizeText "`" = "'" ∧
    normalizeText "´" = "'" ∧
    normalizeText "“" = "\"" ∧ normalizeText "”" = "\"" ∧
    normalizeText "–" = "-" ∧
    normalizeText "…" = "..." ∧
    normalizeText "—" = "—" := by decide

/-- C3 counterexample: the source loop reassigns `testStr`, so substitutions
accumulate across table entries.  On `"o1"` vs `"0l"` the code answers true
(entry `O→0` then entry `1→l`, applied in sequence), while applying each
table entry independently to `"o1"` never yields `"0l"`. -/
theorem ocr_substitutions_accumulate_counterexample :
    areSemanticallySimilar "o1" "0l" = true ∧
    independentSubstitutionCheck "o1" "0l" = false := by decide

/-- The loop of `areSemanticallySimilar` succeeds exactly when some prefix of
the substitution table, applied cumulatively, reaches the target. -/
theorem ocrSubstitutionPass_iff (subs : List (String × String)) (cur target : List Char) :
    ocrSubstitutionPass subs cur target = true ↔
      ∃ k, k < subs.length ∧ applySubstitutionsPrefix (subs.take (k + 1)) cur = target := by
  induction subs generalizing cur with
  | nil => simp [ocrSubstitutionPass]
  | cons s rest ih =>
    obtain ⟨f, t⟩ := s
    by_cases h : replaceAllCI f.data (t.data.map jsLower) cur = target
    · constructor
      · intro _
        exact ⟨0, by simp, by simpa [applySubstitutionsPrefix] using h⟩
      · intro _
        simp [ocrSubstitutionPass, h]
    · have hl : ocrSubstitutionPass ((f, t) :: rest) cur target =
          ocrSubstitutionPass rest (replaceAllCI f.data (t.data.map jsLower) cur) target := by
        simp [ocrSubstitutionPass, h]
      rw [hl, ih]
      constructor
      · rintro ⟨k, hk, he⟩
        exact ⟨k + 1, by simpa using Nat.succ_lt_succ hk,
          by simpa [List.take_succ_cons, applySubstitutionsPrefix] using he⟩
      · rintro ⟨k, hk, he⟩
        match k with
        | 0 => exact absurd (by simpa [applySubstitutionsPrefix] using he) h
        | j + 1 =>
          exact ⟨j, by simpa using Nat.lt_of_succ_lt_succ hk,
            by simpa [List.take_succ_cons, applySubstitutionsPrefix] using he⟩

/-- C3 (amended): `areSemanticallySimilar` returns true iff the normalized
strings are equal, or some prefix of the OCR table applied *cumulatively* (in
table order, each entry acting on the result of the previous ones) turns the
first normalized string into the second; substitutions are re-checked after
each entry but are accumulated, not independent. -/
theorem areSemanticallySimilar_accumulates (a b : String) :
    areSemanticallySimilar a b = true ↔
      (normalizeForOcrErrors a = normalizeForOcrErrors b ∨
        ∃ k, k < characterSubstitutions.length ∧
          applySubstitutionsPrefix (characterSubstitutions.take (k + 1))
            (normalizeForOcrErrors a).data = (normalizeForOcrErrors b).data) := by
  unfold areSemanticallySimilar
  by_cases h : normalizeForOcrErrors a = normalizeForOcrErrors b
  · simp [h]
  · rw [if_neg h, ocrSubstitutionPass_iff]
    simp [h]

/-- C4 counterexample: two parsed values with the same unit differing by more
than 1% of the application value do not fall to `matches = false` /
confidence 0.0 — they fall through to the 5 mL conversion check and match at
confidence 0.90. -/
theorem compareNetContents_one_percent_counterexample :
    parseNetContents "100 ml" = some ⟨100, NCUnit.ml⟩ ∧
    parseNetContents "104 ml" = some ⟨104, NCUnit.ml⟩ ∧
    ¬(|(100 : ℚ) - 104| ≤ 100 * 0.01) ∧
    (compareNetContents "100 ml" "104 ml" BeverageType.distilled_spirits).isMatch = true ∧
    (compareNetContents "100 ml" "104 ml" BeverageType.distilled_spirits).confidence = 0.90 := by
  decide

/-- C4 (amended): for inputs that both parse, `compareNetContents` matches
with confidence 1.0 on same unit and equal value; with 0.95 on same unit
within 1% of the application value; otherwise — same unit or not — with 0.90
exactly when the milliliter-converted values (fl oz × 29.5735) differ by less
than 5 mL; and only in the remaining case returns `matches = false` with
confidence 0.0. -/
theorem compareNetContents_cases (s1 s2 : String) (bt : BeverageType) (p1 p2 : NetParse)
    (h1 : parseNetContents s1 = some p1) (h2 : parseNetContents s2 = some p2) :
    ((compareNetContents s1 s2 bt).isMatch, (compareNetContents s1 s2 bt).confidence) =
      (if p1.unit = p2.unit ∧ p1.value = p2.value then (true, 1.0)
       else if p1.unit = p2.unit ∧ |p1.value - p2.value| ≤ p1.value * 0.01 then (true, 0.95)
       else if |netToMl p1 - netToMl p2| < 5 then (true, 0.90)
       else (false, 0.0)) := by
  unfold compareNetContents netToMl
  rw [h1, h2]
  dsimp only
  split_ifs <;> rfl

/-- Witness for C4 at the spec's unit-conversion example
(12 fl oz ≈ 354.882 mL vs 355 mL). -/
theorem compareNetContents_cases_witness :
    ((compareNetContents "12 fl oz" "355 mL" BeverageType.beer).isMatch,
     (compareNetContents "12 fl oz" "355 mL" BeverageType.beer).confidence) = (true, 0.90) :=
  (compareNetContents_cases "12 fl oz" "355 mL" BeverageType.beer
    ⟨12, NCUnit.floz⟩ ⟨355, NCUnit.ml⟩ (by decide) (by decide)).trans (by decide)

/-- Fuel does not matter once it covers the combined length. -/
theorem levAux_fuel_irrelevant : ∀ (f g : Nat) (xs ys : List Char),
    xs.length + ys.length ≤ f → xs.length + ys.length ≤ g →
    levAux f xs ys = levAux g xs ys := by
  intro f
  induction f with
  | zero =>
    intro g xs ys hf _
    match xs, ys with
    | [], ys => simp [levAux]
    | x :: xs, ys => simp at hf
  | succ f ih =>
    intro g xs ys hf hg
    match xs, ys with
    | [], ys => simp [levAux]
    | x :: xs, [] => simp [levAux]
    | x :: xs, y :: ys =>
      match g with
      | 0 => simp at hg
      | g + 1 =>
        simp only [List.length_cons] at hf hg
        simp only [levAux]
        rw [ih g xs (y :: ys) (by simp only [List.length_cons]; omega)
              (by simp only [List.length_cons]; omega),
            ih g (x :: xs) ys (by simp only [List.length_cons]; omega)
              (by simp only [List.length_cons]; omega),
            ih g xs ys (by omega) (by omega)]

theorem levenshtein_nil_left (ys : List Char) : levenshtein [] ys = ys.length := by
  simp [levenshtein, levAux]

theorem levenshtein_nil_right (xs : List Char) : levenshtein xs [] = xs.length := by
  cases xs <;> simp [levenshtein, levAux]

/-- The defining recurrence at the wrapper level. -/
theorem levenshtein_cons_cons (x y : Char) (xs ys : List Char) :
    levenshtein (x :: xs) (y :: ys) =
      min (min (levenshtein xs (y :: ys) + 1) (levenshtein (x :: xs) ys + 1))
        (levenshtein xs ys + (if x = y then 0 else 1)) := by
  unfold levenshtein
  have hlen : (x :: xs).length + (y :: ys).length = (xs.length + ys.length + 1) + 1 := by
    simp only [List.length_cons]; omega
  rw [hlen]
  simp only [levAux]
  rw [levAux_fuel_irrelevant (xs.length + ys.length + 1) (xs.length + (y :: ys).length)
        xs (y :: ys) (by simp only [List.length_cons]; omega) (le_refl _),
      levAux_fuel_irrelevant (xs.length + ys.length + 1) ((x :: xs).length + ys.length)
        (x :: xs) ys (by simp only [List.length_cons]; omega) (le_refl _),
      levAux_fuel_irrelevant (xs.length + ys.length + 1) (xs.length + ys.length)
        xs ys (by omega) (le_refl _)]

/-- The Levenshtein distance is symmetric. -/
theorem levenshtein_comm (xs ys : List Char) : levenshtein xs ys = levenshtein ys xs := by
  induction xs generalizing ys with
  | nil => cases ys <;> simp [levenshtein_nil_left, levenshtein_nil_right]
  | cons x xs ihx =>
    induction ys with
    | nil => simp [levenshtein_nil_left, levenshtein_nil_right]
    | cons y ys ihy =>
      rw [levenshtein_cons_cons, levenshtein_cons_cons]
      rw [ihx (y :: ys), ihy, ihx ys]
      have hc : (if x = y then (0 : Nat) else 1) = (if y = x then 0 else 1) := by
        by_cases h : x = y
        · simp [h]
        · simp [h, Ne.symm h]
      rw [hc, min_comm (levenshtein (y :: ys) xs + 1) (levenshtein ys (x :: xs) + 1)]

/-- `stringSimilarity` is symmetric (helper for C8). -/
theorem stringSimilarity_comm (a b : String) :
    stringSimilarity a b = stringSimilarity b a := by
  simp only [stringSimilarity]
  by_cases h : normalizeText a = normalizeText b
  · rw [if_pos h, if_pos h.symm]
  · rw [if_neg h, if_neg (Ne.symm h)]
    by_cases h2 : (normalizeText a).length = 0 ∨ (normalizeText b).length = 0
    · rw [if_pos h2, if_pos (Or.symm h2)]
    · rw [if_neg h2, if_neg (fun hc => h2 (Or.symm hc))]
      rw [levenshtein_comm (normalizeText a).data (normalizeText b).data,
          max_comm (normalizeText a).length (normalizeText b).length]

/-- C8 counterexample: `similarity(x, "") = 0` fails for the non-empty
string `" "` — both sides normalize to the empty string, the equality
short-circuit fires first, and the result is 1. -/
theorem stringSimilarity_whitespace_counterexample :
    (" " : String) ≠ "" ∧ stringSimilarity " " "" = 1 := by decide

/-- C8 (amended): `similarity(x, x) = 1` for non-empty `x`;
`similarity(x, "") = 0` for every `x` whose *normalization* is non-empty (a
non-empty all-whitespace `x` instead hits the equality short-circuit and
yields 1); and `similarity` is symmetric. -/
theorem stringSimilarity_bounds_and_symm :
    (∀ x : String, x ≠ "" → stringSimilarity x x = 1) ∧
    (∀ x : String, normalizeText x ≠ "" → stringSimilarity x "" = 0) ∧
    (∀ a b : String, stringSimilarity a b = stringSimilarity b a) := by
  refine ⟨fun x _ => by simp [stringSimilarity], fun x hx => ?_, stringSimilarity_comm⟩
  have he : normalizeText "" = "" := rfl
  have h0 : ("" : String).length = 0 := rfl
  simp only [stringSimilarity, he]
  rw [if_neg hx, if_pos (Or.inr h0)]

/-- Witness for C8 at concrete strings. -/
theorem stringSimilarity_bounds_and_symm_witness :
    stringSimilarity "ab" "ab" = 1 ∧ stringSimilarity "ab" "" = 0 ∧
    stringSimilarity "ab" "b" = stringSimilarity "b" "ab" :=
  ⟨stringSimilarity_bounds_and_symm.1 "ab" (by decide),
   stringSimilarity_bounds_and_symm.2.1 "ab" (by decide),
   stringSimilarity_bounds_and_symm.2.2 "ab" "b"⟩

/-- `hasInfix` is sound for `List.IsInfix`. -/
theorem hasInfix_isInfix : ∀ {t p : List Char}, hasInfix t p = true → p <:+: t := by
  intro t
  induction t with
  | nil =>
    intro p h
    unfold hasInfix at h
    by_cases hp : p.isPrefixOf ([] : List Char)
    · exact (List.isPrefixOf_iff_prefix.mp hp).isInfix
    · simp [hp] at h
  | cons c ts ih =>
    intro p h
    unfold hasInfix at h
    by_cases hp : p.isPrefixOf (c :: ts)
    · exact (List.isPrefixOf_iff_prefix.mp hp).isInfix
    · simp only [hp, if_neg, Bool.false_eq_true, if_false] at h
      exact List.infix_cons (ih h)

/-- Trimming cannot erase a list that contains a non-whitespace character. -/
theorem trimWs_ne_nil_of_mem {l : List Char} {c : Char} (hc : c ∈ l)
    (hw : isJsWhitespace c = false) : trimWs l ≠ [] := by
  intro h
  unfold trimWs at h
  rw [List.reverse_eq_nil_iff, List.dropWhile_eq_nil_iff] at h
  have hcd : c ∈ l.dropWhile isJsWhitespace := by
    have hsplit := List.takeWhile_append_dropWhile (p := isJsWhitespace) (l := l)
    rcases List.mem_append.mp (hsplit ▸ hc) with htk | hdp
    · exact absurd (List.mem_takeWhile_imp htk) (by simp [hw])
    · exact hdp
  have := h c (List.mem_reverse.mpr hcd)
  rw [hw] at this
  exact Bool.false_ne_true this

/-- A string containing the warning prefix does not trim to empty. -/
theorem trim_ne_zero_of_prefix_present (t : String)
    (h : jsIncludes t "GOVERNMENT WARNING:" = true) : ¬(jsTrim t).length = 0 := by
  intro h0
  have hinf : ("GOVERNMENT WARNING:" : String).data <:+: t.data := hasInfix_isInfix h
  have hG : 'G' ∈ t.data := hinf.subset (by decide)
  have hTrim : trimWs t.data = [] := List.length_eq_zero.mp h0
  exact trimWs_ne_nil_of_mem hG (by decide) hTrim

/-- `b && l.isEmpty` expresses "`b` and `l` is empty". -/
theorem and_isEmpty_iff (b : Bool) (l : List String) :
    (b && l.isEmpty) = true ↔ (b = true ∧ l = []) := by
  cases b <;> cases l <;> simp

/-- The basic validator never reports `correct` without `present`. -/
theorem warning_correct_implies_present (w : Option String) :
    (validateGovernmentWarning w).correct = true →
    (validateGovernmentWarning w).present = true := by
  unfold validateGovernmentWarning
  match w with
  | none => simp
  | some t =>
    dsimp only
    split_ifs <;> simp

/-- C5: in the basic warning validator, once the exact prefix is present and
the normalized similarity reaches 0.95, `correct = true` regardless of the
missing-phrase scan, whose findings are still surfaced in `issues`; in the
enhanced variant, `correct = true` holds exactly when the basic result is
correct and the collected issue list is empty. -/
theorem warning_similarity_and_enhanced_gate :
    (∀ t : String, jsIncludes t "GOVERNMENT WARNING:" = true →
      stringSimilarity (normalizeText t) (normalizeText GOVERNMENT_WARNING_TEXT) ≥
        warningMinSimilarity →
      (validateGovernmentWarning (some t)).correct = true ∧
      (validateGovernmentWarning (some t)).issues =
        (if (GOVERNMENT_WARNING_REQUIRED_PHRASES.filter
              (fun p => jsIncludes (normalizeText t) (lowerStr p) = false)).isEmpty then none
         else
           some [missingPhrasesMsg (GOVERNMENT_WARNING_REQUIRED_PHRASES.filter
             (fun p => jsIncludes (normalizeText t) (lowerStr p) = false))])) ∧
    (∀ ed : ExtractedLabelData,
      (validateGovernmentWarningEnhanced ed).correct = true ↔
        ((validateGovernmentWarning ed.governmentWarning).correct = true ∧
          (validateGovernmentWarningEnhanced ed).issues = [])) := by
  constructor
  · intro t hpref hsim
    have htrim := trim_ne_zero_of_prefix_present t hpref
    unfold validateGovernmentWarning
    dsimp only
    rw [if_neg htrim, if_neg (by simp [hpref]), if_pos hsim]
    refine ⟨rfl, ?_⟩
    by_cases hm : (GOVERNMENT_WARNING_REQUIRED_PHRASES.filter
        (fun p => jsIncludes (normalizeText t) (lowerStr p) = false)).isEmpty = true
    · simp only [hm, if_true]
      simp
    · simp only [hm, if_false]
      simp
  · intro ed
    unfold validateGovernmentWarningEnhanced
    dsimp only
    by_cases hp : (validateGovernmentWarning ed.governmentWarning).present = false
    · rw [if_pos hp]
      constructor
      · intro h; exact absurd h (by simp)
      · rintro ⟨hc, _⟩
        exact absurd (warning_correct_implies_present _ hc) (by simp [hp])
    · rw [if_neg hp]
      dsimp only
      exact and_isEmpty_iff _ _

/-- Witness for C5: the canonical warning text validates as correct, and the
enhanced gate holds at the sample extraction. -/
theorem warning_similarity_and_enhanced_gate_witness :
    (validateGovernmentWarning (some GOVERNMENT_WARNING_TEXT)).correct = true ∧
    ((validateGovernmentWarningEnhanced sampleExtractedExact).correct = true ↔
      ((validateGovernmentWarning sampleExtractedExact.governmentWarning).correct = true ∧
        (validateGovernmentWarningEnhanced sampleExtractedExact).issues = [])) :=
  ⟨(warning_similarity_and_enhanced_gate.1 GOVERNMENT_WARNING_TEXT (by decide) (by decide)).1,
   warning_similarity_and_enhanced_gate.2 sampleExtractedExact⟩

/-- `verifyField` labels its result with the given field name. -/
theorem verifyField_field (n : String) (a lv : Option String)
    (f : String → String → CompareResult) : (verifyField n a lv f).field = n := by
  unfold verifyField
  split_ifs <;> rfl

/-- The by-name lookup the critical-failure check performs finds the brand
verification (the head of the list). -/
theorem find_brandName (app : ApplicationData) (ed : ExtractedLabelData) :
    (fieldVerificationsOf app ed).find? (fun f => f.field == "Brand Name") =
      some (brandNameVerification app ed) := by
  have h1 : ((fun f => f.field == "Brand Name") (brandNameVerification app ed)) = true := by
    simp only [brandNameVerification, verifyField_field]
    rfl
  show List.find? _ (brandNameVerification app ed :: _) = _
  rw [@List.find?_cons_of_pos FieldVerification (fun f => f.field == "Brand Name")
        (brandNameVerification app ed) _ h1]

/-- The by-name lookup finds the alcohol verification (third in the list). -/
theorem find_alcohol (app : ApplicationData) (ed : ExtractedLabelData) :
    (fieldVerificationsOf app ed).find? (fun f => f.field == "Alcohol Content") =
      some (alcoholVerification app ed) := by
  have hb : ((fun f => f.field == "Alcohol Content") (brandNameVerification app ed)) = false := by
    simp only [brandNameVerification, verifyField_field]
    rfl
  have hc : ((fun f => f.field == "Alcohol Content") (classTypeVerification app ed)) = false := by
    simp only [classTypeVerification, verifyField_field]
    rfl
  have ha : ((fun f => f.field == "Alcohol Content") (alcoholVerification app ed)) = true := by
    simp only [alcoholVerification, verifyField_field]
    rfl
  show List.find? _ (brandNameVerification app ed :: classTypeVerification app ed ::
    alcoholVerification app ed :: _) = _
  rw [@List.find?_cons_of_neg FieldVerification (fun f => f.field == "Alcohol Content")
        (brandNameVerification app ed) _ (by simp [hb]),
      @List.find?_cons_of_neg FieldVerification (fun f => f.field == "Alcohol Content")
        (classTypeVerification app ed) _ (by simp [hc]),
      @List.find?_cons_of_pos FieldVerification (fun f => f.field == "Alcohol Content")
        (alcoholVerification app ed) _ ha]

/-- The decision block returns `approved` only from its single approval
branch, whose guard carries all four conditions; the reasons list is returned
unchanged (hence empty). -/
theorem statusDecision_eq_approved {hc : Bool} {m tot : Nat} {wc : Bool} {ov : ℚ}
    {rs : List String}
    (h : (statusDecision hc m tot wc ov rs).1 = VerificationStatus.approved) :
    m = tot ∧ wc = true ∧ ov ≥ autoApprovalMinimum ∧ rs = [] ∧
    (statusDecision hc m tot wc ov rs).2.1 = [] := by
  unfold statusDecision at h ⊢
  split_ifs at h ⊢
  all_goals simp_all [List.length_eq_zero]

/-- Under a critical failure the decision block yields `needs_review` exactly
when confidence is at least the medium threshold and some review reason was
already collected, and `rejected` otherwise. -/
theorem statusDecision_crit (m tot : Nat) (wc : Bool) (ov : ℚ) (rs : List String) :
    (statusDecision true m tot wc ov rs).1 =
      (if ov ≥ thresholdMedium ∧ rs ≠ [] then VerificationStatus.needs_review
       else VerificationStatus.rejected) := by
  unfold statusDecision
  rw [if_pos rfl]
  by_cases h : ov ≥ thresholdMedium ∧ rs.length > 0
  · have hne : ov ≥ thresholdMedium ∧ rs ≠ [] := ⟨h.1, List.length_pos.mp h.2⟩
    rw [if_pos h, if_pos hne]
  · have hne : ¬(ov ≥ thresholdMedium ∧ rs ≠ []) :=
      fun hc => h ⟨hc.1, List.length_pos.mpr hc.2⟩
    rw [if_neg h, if_neg hne]

/-- C1: an `approved` verdict implies all fields matched, the warning
validated as correct, the overall confidence reached the auto-approval
minimum (0.85), and no human-review reason was collected. -/
theorem approved_implies_clean (app : ApplicationData) (ed : ExtractedLabelData) (t : ℚ)
    (h : (verifyLabel app ed t).status = VerificationStatus.approved) :
    (verifyLabel app ed t).matchedFields = (verifyLabel app ed t).totalFields ∧
    (verifyLabel app ed t).governmentWarningCorrect = true ∧
    (verifyLabel app ed t).overallConfidence ≥ autoApprovalMinimum ∧
    (verifyLabel app ed t).humanReviewReasons = [] := by
  have hs : (verifyLabel app ed t).status =
      (statusDecision (hasCriticalFailure app ed) (matchedFieldsOf app ed)
        (totalFieldsOf app ed) (warningValidationOf ed).correct
        (overallConfidenceOf app ed) (preReviewReasons app ed)).1 := rfl
  have hr : (verifyLabel app ed t).humanReviewReasons =
      (statusDecision (hasCriticalFailure app ed) (matchedFieldsOf app ed)
        (totalFieldsOf app ed) (warningValidationOf ed).correct
        (overallConfidenceOf app ed) (preReviewReasons app ed)).2.1 := rfl
  rw [hs] at h
  obtain ⟨h1, h2, h3, _, h5⟩ := statusDecision_eq_approved h
  exact ⟨h1, h2, h3, by rw [hr]; exact h5⟩

/-- Witness for C1: a concrete application/extraction pair that is approved,
with the four consequences instantiated. -/
theorem approved_implies_clean_witness :
    (verifyLabel sampleApplication sampleExtractedExact 1000).status =
      VerificationStatus.approved ∧
    ((verifyLabel sampleApplication sampleExtractedExact 1000).matchedFields =
       (verifyLabel sampleApplication sampleExtractedExact 1000).totalFields ∧
     (verifyLabel sampleApplication sampleExtractedExact 1000).governmentWarningCorrect = true ∧
     (verifyLabel sampleApplication sampleExtractedExact 1000).overallConfidence ≥
       autoApprovalMinimum ∧
     (verifyLabel sampleApplication sampleExtractedExact 1000).humanReviewReasons = []) :=
  ⟨by decide, approved_implies_clean sampleApplication sampleExtractedExact 1000 (by decide)⟩

/-- C2: if any of the four critical-failure predicates holds (warning absent;
warning present-but-incorrect with warning confidence below 0.85; brand
mismatch with brand confidence below the 0.70 review threshold;
alcohol-content mismatch), the status is `needs_review` when the overall
confidence is at least 0.70 and at least one review reason was already
collected, and `rejected` otherwise — never `approved`. -/
theorem critical_failure_blocks_approval (app : ApplicationData) (ed : ExtractedLabelData)
    (t : ℚ)
    (h : (warningValidationOf ed).present = false ∨
      ((warningValidationOf ed).present = true ∧ (warningValidationOf ed).correct = false ∧
        (warningValidationOf ed).confidence < 0.85) ∨
      ((brandNameVerification app ed).isMatch = false ∧
        (brandNameVerification app ed).confidence < brandReviewThreshold) ∨
      (alcoholVerification app ed).isMatch = false) :
    (verifyLabel app ed t).status =
      (if overallConfidenceOf app ed ≥ thresholdMedium ∧ preReviewReasons app ed ≠ [] then
        VerificationStatus.needs_review
      else VerificationStatus.rejected) ∧
    (verifyLabel app ed t).status ≠ VerificationStatus.approved := by
  have hcrit : hasCriticalFailure app ed = true := by
    unfold hasCriticalFailure
    rcases h with h1 | ⟨_, h2, h3⟩ | ⟨h3a, h3b⟩ | h4
    · have : criticalWarningAbsent ed = true := by
        unfold criticalWarningAbsent; simp [h1]
      simp [this]
    · have : criticalWarningIncorrect ed = true := by
        unfold criticalWarningIncorrect; simp [h2, h3]
      simp [this]
    · have : criticalBrandMismatch app ed = true := by
        unfold criticalBrandMismatch
        rw [find_brandName]
        simp [h3a, h3b]
      simp [this]
    · have : criticalAlcoholMismatch app ed = true := by
        unfold criticalAlcoholMismatch
        rw [find_alcohol]
        simp [h4]
      simp [this]
  have hs : (verifyLabel app ed t).status =
      (statusDecision (hasCriticalFailure app ed) (matchedFieldsOf app ed)
        (totalFieldsOf app ed) (warningValidationOf ed).correct
        (overallConfidenceOf app ed) (preReviewReasons app ed)).1 := rfl
  rw [hs, hcrit, statusDecision_crit]
  refine ⟨rfl, ?_⟩
  split_ifs <;> decide

/-- Witness for C2: a concrete extraction with the warning absent; the result
is not approved. -/
theorem critical_failure_blocks_approval_witness :
    (warningValidationOf sampleExtractedEmpty).present = false ∧
    (verifyLabel sampleApplication sampleExtractedEmpty 1000).status ≠
      VerificationStatus.approved :=
  ⟨by decide,
   (critical_failure_blocks_approval sampleApplication sampleExtractedEmpty 1000
     (Or.inl (by decide))).2⟩

/-- C10: the enhanced warning validator — and through it the warning outcome
of `verifyLabel` — never consults `onContrastingBackground`, and treats
`appearsBold = true` and `appearsBold = null` identically (only an explicit
`false` adds a formatting issue).  Inputs differing only in those ways yield
identical results; the full `verifyLabel` outputs agree everywhere except the
verbatim `extractedData` passthrough. -/
theorem warningDetails_noninterference (app : ApplicationData) (ed : ExtractedLabelData)
    (d : GovernmentWarningDetails) (c₁ c₂ : Option Bool) (t : ℚ) :
    (validateGovernmentWarningEnhanced
        {ed with governmentWarningDetails := some {d with onContrastingBackground := c₁}} =
      validateGovernmentWarningEnhanced
        {ed with governmentWarningDetails := some {d with onContrastingBackground := c₂}}) ∧
    (validateGovernmentWarningEnhanced
        {ed with governmentWarningDetails := some {d with appearsBold := some true}} =
      validateGovernmentWarningEnhanced
        {ed with governmentWarningDetails := some {d with appearsBold := none}}) ∧
    (verifyLabel app
        {ed with governmentWarningDetails := some {d with onContrastingBackground := c₁}} t =
      {verifyLabel app
          {ed with governmentWarningDetails := some {d with onContrastingBackground := c₂}} t with
        extractedData :=
          {ed with governmentWarningDetails := some {d with onContrastingBackground := c₁}}}) ∧
    (verifyLabel app
        {ed with governmentWarningDetails := some {d with appearsBold := some true}} t =
      {verifyLabel app
          {ed with governmentWarningDetails := some {d with appearsBold := none}} t with
        extractedData :=
          {ed with governmentWarningDetails := some {d with appearsBold := some true}}}) :=
  ⟨rfl, rfl, rfl, rfl⟩

end TTB
